import Mathlib

/-!
Shallow embedding of `beam_nuggets/io/relational_db/sqlalchemy_db.py`.

Python runtime values that can appear in a record are modelled by the
inductive type `PyVal`; the duck-typing checks used by the source
(`isinstance(x, bool)`, `x + 1`, `hasattr(x, '__len__')`,
`isinstance(x, datetime.datetime)`, `isinstance(x, datetime.date)`) are
modelled per constructor, following Python semantics (a `datetime` is
also a `date`; `bool`, `int` and `float` support `+ 1`; only `str` has
`__len__` among the modelled scalars).

Database state, the session and the table cache of `SqlAlchemyDB` are
modelled by explicit state passing; exceptions by `Except` / an error
field of `StepResult`.
-/

set_option autoImplicit false

namespace BeamNuggets

/-- A Python runtime value as it may appear in a sample record:
booleans, ints, floats, strings, `datetime.datetime`, `datetime.date`
and `None`. -/
inductive PyVal where
  | bool (b : Bool)
  | int (n : Int)
  | float (q : Int)
  | str (s : String)
  | datetime (t : Nat)
  | date (d : Nat)
  | pynone
  deriving DecidableEq, Repr

/-- `isinstance(x, bool)`. -/
def PyVal.isBool : PyVal → Bool
  | .bool _ => true
  | _ => false

/-- Whether `x + 1` evaluates without raising: true exactly for `bool`,
`int` and `float` among the modelled values (numbers support addition
with an int; `str`, `datetime`, `date` and `None` raise `TypeError`). -/
def PyVal.supportsAddOne : PyVal → Bool
  | .bool _ => true
  | .int _ => true
  | .float _ => true
  | _ => false

/-- `hasattr(x, '__len__')`: among the modelled scalars only strings
have a length. -/
def PyVal.hasLen : PyVal → Bool
  | .str _ => true
  | _ => false

/-- `isinstance(x, datetime.datetime)`. -/
def PyVal.isDatetime : PyVal → Bool
  | .datetime _ => true
  | _ => false

/-- `isinstance(x, datetime.date)`: in Python `datetime` is a subclass
of `date`, so both constructors satisfy this check. -/
def PyVal.isDate : PyVal → Bool
  | .datetime _ => true
  | .date _ => true
  | _ => false

/-- A SQLAlchemy column type as used by the source: `Boolean`, `Float`,
`Integer`, `DateTime`, `Date`, `String` (no length bound) and
`String(n)` (bounded). -/
inductive DBType where
  | Boolean
  | Float
  | Integer
  | DateTime
  | Date
  | String
  | StringN (n : Nat)
  deriving DecidableEq, Repr

/-- Whether the list starts with the given pattern (character lists). -/
def listStartsWith : List Char → List Char → Bool
  | _, [] => true
  | [], _ :: _ => false
  | a :: as, b :: bs => a == b && listStartsWith as bs

/-- Whether `needle` occurs contiguously inside the list. -/
def listHasSubstring (needle : List Char) : List Char → Bool
  | [] => needle.isEmpty
  | c :: rest => listStartsWith (c :: rest) needle || listHasSubstring needle rest

/-- Python's `needle in hay` substring test on strings. -/
def strContains (hay needle : String) : Bool :=
  listHasSubstring needle.toList hay.toList

/-- `_does_support_varchar(drivername)`:
`'postgresql' in drivername or 'sqlite' in drivername`. -/
def _does_support_varchar (drivername : String) : Bool :=
  strContains drivername "postgresql" || strContains drivername "sqlite"

/-- `_is_number(x)`: `x + 1` does not raise and `x` has no `__len__`. -/
def _is_number (x : PyVal) : Bool :=
  x.supportsAddOne && !x.hasLen

/-- `PYTHON_TO_DB_TYPE`: the ordered list of (predicate, column type)
pairs; order matters in the source. -/
def PYTHON_TO_DB_TYPE : List ((PyVal → Bool) × DBType) :=
  [ (PyVal.isBool, DBType.Boolean),
    (_is_number, DBType.Float),
    (PyVal.isDatetime, DBType.DateTime),
    (PyVal.isDate, DBType.Date) ]

/-- `infer_db_type(val, drivername)`: first matching predicate in
`PYTHON_TO_DB_TYPE` wins; otherwise `String` on dialects supporting
unbounded varchar and `String(100)` elsewhere. -/
def infer_db_type (val : PyVal) (drivername : String) : DBType :=
  match PYTHON_TO_DB_TYPE.find? (fun p => p.1 val) with
  | some p => p.2
  | none =>
      if _does_support_varchar drivername then DBType.String
      else DBType.StringN 100

/-- Modelled from the spec (section 4.3 Type Inference), for comparison
with `infer_db_type`: first-match-wins in the order boolean, numeric
(supports addition, lacks a length property), timestamp, date-only;
fallback text, unbounded on dialects that support it, bounded to 100
characters otherwise. -/
def inferDbTypeSpec (val : PyVal) (drivername : String) : DBType :=
  if val.isBool then DBType.Boolean
  else if val.supportsAddOne && !val.hasLen then DBType.Float
  else if val.isDatetime then DBType.DateTime
  else if val.isDate then DBType.Date
  else if _does_support_varchar drivername then DBType.String
  else DBType.StringN 100

/-- A SQLAlchemy `Column(name, type, primary_key=...)` as built by
`_columns_from_sample_record`. -/
structure Column where
  name : String
  dbtype : DBType
  primary_key : Bool
  deriving DecidableEq, Repr

/-- A record dict: an ordered mapping from column name to scalar value
(iteration order of `record.iteritems()` is the list order). -/
abbrev Row := List (String × PyVal)

/-- A string of `n` underscores, built by prepending. -/
def uscores : Nat → String
  | 0 => ""
  | n + 1 => "_" ++ uscores n

/-- The `while pri_col_name in record.keys(): pri_col_name += '_'` loop,
with explicit fuel. `keys.length + 1` fuel always suffices because the
candidate names strictly grow in length, so at most `keys.length`
candidates can collide (proved below in `nameLoop_spec`). -/
def nameLoop (keys : List String) : String → Nat → String
  | name, 0 => name
  | name, fuel + 1 =>
      if keys.contains name then nameLoop keys (name ++ "_") fuel else name

/-- The synthetic primary-key name chosen when no primary-key column
names are configured: `id` with underscores appended until it collides
with no key. -/
def _next_free_pk_name (keys : List String) : String :=
  nameLoop keys "id" (keys.length + 1)

/-- A fallible element-wise construction (a Python list comprehension
whose body may raise): `none` as soon as one element fails. -/
def optionMapList {α γ : Type} (f : α → Option γ) : List α → Option (List γ)
  | [] => some []
  | a :: t =>
      match f a, optionMapList f t with
      | some v, some vs => some (v :: vs)
      | _, _ => none

/-- `_columns_from_sample_record(record, primary_key_column_names,
drivername)`. `none` models the `KeyError` raised by `record[col]` when
a configured primary-key column name is absent from the sample record. -/
def _columns_from_sample_record (record : Row)
    (primary_key_column_names : List String) (drivername : String) :
    Option (List Column) :=
  if 0 < primary_key_column_names.length then
    match optionMapList
        (fun col => (record.lookup col).map
          (fun v => Column.mk col (infer_db_type v drivername) true))
        primary_key_column_names with
    | some primary_key_columns =>
        some (primary_key_columns ++
          (record.filter
              (fun kv => !primary_key_column_names.contains kv.1)).map
            (fun kv => Column.mk kv.1 (infer_db_type kv.2 drivername) false))
    | none => none
  else
    some (Column.mk (_next_free_pk_name (record.map Prod.fst))
        DBType.Integer true ::
      record.map (fun kv => Column.mk kv.1 (infer_db_type kv.2 drivername) false))

/-- The insert-statement builder chosen for a write: the caller-supplied
`create_insert_f` (identified by an opaque tag), `create_upsert_postgres`,
`create_upsert_mysql`, or the plain `create_insert`. -/
inductive InsertStrategy where
  | custom (f : Nat)
  | upsertPostgres
  | upsertMysql
  | plainInsert
  deriving DecidableEq, Repr

/-- `TableConfiguration`: `define_table_f` is modelled by the column
list it would define (`None` when absent); `create_insert_f` by an
opaque tag (`None` when absent); `primary_key_columns or []` is applied
at construction. -/
structure TableConfiguration where
  name : String
  define_table_f : Option (List Column)
  create_table_if_missing : Bool
  primary_key_column_names : List String
  create_insert_f : Option Nat
  deriving DecidableEq, Repr

/-- `SqlAlchemyDB._get_create_insert_f(table_config)`: the custom
builder when supplied, else dispatch on `'postgresql' in drivername`,
then `'mysql' in drivername`, else the plain insert. -/
def _get_create_insert_f (drivername : String)
    (table_config : TableConfiguration) : InsertStrategy :=
  match table_config.create_insert_f with
  | some f => InsertStrategy.custom f
  | none =>
      if strContains drivername "postgresql" then InsertStrategy.upsertPostgres
      else if strContains drivername "mysql" then InsertStrategy.upsertMysql
      else InsertStrategy.plainInsert

/-- The Python exceptions the modelled paths can raise: `KeyError` from
`record[col]`, `SqlAlchemyDbException` with its message, and an opaque
database-layer failure during statement construction / execute / commit. -/
inductive PyError where
  | keyError (key : String)
  | sqlAlchemyDbError (msg : String)
  | dbError (code : Nat)
  deriving DecidableEq, Repr

/-- The database: table name to actual column list, plus committed rows
tagged with the table they were inserted into. -/
structure DB where
  tables : List (String × List Column)
  rows : List (String × Row)
  deriving DecidableEq, Repr

/-- `load_table(session, name)`: returns the existing table's schema
when `engine.dialect.has_table` holds, else `None`; never modifies the
database. -/
def load_table (db : DB) (name : String) : Option (List Column) :=
  db.tables.lookup name

/-- `create_table(session, name, table_config, record)`: load first; if
absent and `create_table_if_missing`, define columns (the configured
`define_table_f`, else the default inferred from the sample record) and
create the table; if absent and not allowed to create, return `None`
with the database untouched. -/
def create_table (db : DB) (name : String)
    (table_config : TableConfiguration) (record : Row) (drivername : String) :
    Except PyError (Option (List Column) × DB) :=
  match load_table db name with
  | some table_class => Except.ok (some table_class, db)
  | none =>
      if table_config.create_table_if_missing then
        match table_config.define_table_f with
        | some cols =>
            Except.ok (some cols, ⟨db.tables ++ [(name, cols)], db.rows⟩)
        | none =>
            match _columns_from_sample_record record
                table_config.primary_key_column_names drivername with
            | some cols =>
                Except.ok (some cols, ⟨db.tables ++ [(name, cols)], db.rows⟩)
            | none =>
                Except.error (PyError.keyError
                  ((table_config.primary_key_column_names.find?
                      (fun c => (record.lookup c).isNone)).getD ""))
      else Except.ok (none, db)

/-- `get_column_names_from_table(table_class)`. -/
def get_column_names_from_table (table_class : List Column) : List String :=
  table_class.map Column.name

/-- `_Table`: the cached handle wrapping a resolved schema. -/
structure TableHandle where
  table_class : List Column
  name : String
  column_names : List String
  deriving DecidableEq, Repr

/-- `_Table.__init__(table_class, name)`. -/
def mk_Table (table_class : List Column) (name : String) : TableHandle :=
  ⟨table_class, name, get_column_names_from_table table_class⟩

/-- The connection manager `SqlAlchemyDB`: the drivername of its source
URL, whether `self._session` currently holds an open session, and the
`self._name_to_table` cache. -/
structure SqlAlchemyDB where
  drivername : String
  session_open : Bool
  name_to_table : List (String × TableHandle)
  deriving DecidableEq, Repr

/-- `start_session` (database creation when missing is outside the
modelled claims): opens a fresh session. -/
def start_session (st : SqlAlchemyDB) : SqlAlchemyDB :=
  { st with session_open := true }

/-- `close_session`: closes the session and drops the reference; the
`_name_to_table` cache is not touched. -/
def close_session (st : SqlAlchemyDB) : SqlAlchemyDB :=
  { st with session_open := false }

/-- `SqlAlchemyDB._get_table`: call the resolver; wrap a truthy result
in `_Table`, else raise `SqlAlchemyDbException('Failed to get table
{name}')`. -/
def _get_table (db : DB) (name : String)
    (get_table_f : DB → Except PyError (Option (List Column) × DB)) :
    Except PyError (TableHandle × DB) :=
  match get_table_f db with
  | Except.error e => Except.error e
  | Except.ok (some table_class, db2) => Except.ok (mk_Table table_class name, db2)
  | Except.ok (none, _) =>
      Except.error (PyError.sqlAlchemyDbError ("Failed to get table " ++ name))

/-- `SqlAlchemyDB._open_table`: serve from the cache when present;
otherwise resolve via `_get_table` and cache the result. When
`_get_table` raises, the assignment into the cache never happens (the
right-hand side is evaluated first), so the cache is unchanged. -/
def _open_table (st : SqlAlchemyDB) (db : DB) (name : String)
    (get_table_f : DB → Except PyError (Option (List Column) × DB)) :
    Except PyError (TableHandle × SqlAlchemyDB × DB) :=
  match st.name_to_table.lookup name with
  | some table => Except.ok (table, st, db)
  | none =>
      match _get_table db name get_table_f with
      | Except.error e => Except.error e
      | Except.ok (table, db2) =>
          Except.ok (table,
            { st with name_to_table := st.name_to_table ++ [(name, table)] },
            db2)

/-- `SqlAlchemyDB._open_table_for_read`: resolver is `load_table`. -/
def _open_table_for_read (st : SqlAlchemyDB) (db : DB) (name : String) :
    Except PyError (TableHandle × SqlAlchemyDB × DB) :=
  _open_table st db name (fun d => Except.ok (load_table d name, d))

/-- `SqlAlchemyDB._open_table_for_write`: resolver is `create_table`. -/
def _open_table_for_write (st : SqlAlchemyDB) (db : DB)
    (table_config : TableConfiguration) (record : Row) :
    Except PyError (TableHandle × SqlAlchemyDB × DB) :=
  _open_table st db table_config.name
    (fun d => create_table d table_config.name table_config record st.drivername)

/-- Outcome of one stateful operation: the raised error when there is
one, and the connection-manager and database state after the call. -/
structure StepResult where
  error : Option PyError
  st : SqlAlchemyDB
  db : DB
  deriving DecidableEq, Repr

/-- A committed single-row insert. -/
def insertRow (db : DB) (name : String) (record : Row) : DB :=
  ⟨db.tables, db.rows ++ [(name, record)]⟩

/-- `SqlAlchemyDB.write_record` composed with `_Table.write_record`.
`execFailure` is an oracle for the body of the `try` block in
`_Table.write_record` (statement construction, `session.execute`,
`session.commit`): `none` means it commits the row; `some e` means it
raises `e`, upon which the source rolls the transaction back (the
uncommitted row is discarded), closes the session and re-raises. A
failure during table resolution propagates out of
`_open_table_for_write` before that `try` block is entered, leaving the
session as it was. -/
def write_record (st : SqlAlchemyDB) (db : DB)
    (table_config : TableConfiguration) (record : Row)
    (execFailure : Option PyError) : StepResult :=
  match _open_table_for_write st db table_config record with
  | Except.error e => ⟨some e, st, db⟩
  | Except.ok (table, st2, db2) =>
      match execFailure with
      | none => ⟨none, st2, insertRow db2 table.name record⟩
      | some e => ⟨some e, { st2 with session_open := false }, db2⟩

/-- `_Table._from_db_record`: project a persisted record onto the
handle's column names. -/
def _from_db_record (column_names : List String) (db_record : Row) : Row :=
  column_names.map (fun c => (c, (db_record.lookup c).getD PyVal.pynone))

/-- `_Table.records(session)`: all rows of the table, projected. -/
def table_records (table : TableHandle) (db : DB) : List Row :=
  (db.rows.filter (fun nr => nr.1 == table.name)).map
    (fun nr => _from_db_record table.column_names nr.2)

/-- `SqlAlchemyDB.read(table_name)`: open for read, then iterate. -/
def read (st : SqlAlchemyDB) (db : DB) (name : String) :
    Except PyError (List Row × SqlAlchemyDB × DB) :=
  match _open_table_for_read st db name with
  | Except.error e => Except.error e
  | Except.ok (table, st2, db2) => Except.ok (table_records table db2, st2, db2)

/-! ### Helper lemmas -/

theorem lookup_append_left {β : Type} {l1 l2 : List (String × β)} {k : String} {v : β}
    (h : l1.lookup k = some v) : (l1 ++ l2).lookup k = some v := by
  induction l1 with
  | nil => simp [List.lookup] at h
  | cons a t ih =>
      rw [List.cons_append]
      rw [List.lookup] at h ⊢
      cases hk : k == a.1 with
      | true => simpa [hk] using h
      | false =>
          rw [hk] at h
          simpa [hk] using ih h

theorem length_filter_lt {α : Type} {p q : α → Bool} {a : α} {l : List α}
    (hpq : ∀ x, p x = true → q x = true) (ha : a ∈ l)
    (hqa : q a = true) (hpa : p a = false) :
    (l.filter p).length < (l.filter q).length := by
  induction l with
  | nil => cases ha
  | cons b t ih =>
      rcases List.mem_cons.mp ha with rfl | hb
      · have hle : (t.filter p).length ≤ (t.filter q).length :=
          (List.monotone_filter_right t fun x hx => hpq x hx).length_le
        simp only [List.filter_cons, hpa, hqa]
        simpa using Nat.lt_succ_of_le hle
      · have hlt := ih hb
        cases hpb : p b with
        | true =>
            have hqb := hpq b hpb
            simp only [List.filter_cons, hpb, hqb]
            simpa using Nat.succ_lt_succ hlt
        | false =>
            cases hqb : q b with
            | true =>
                simp only [List.filter_cons, hpb, hqb]
                simpa using Nat.lt_succ_of_lt hlt
            | false =>
                simpa only [List.filter_cons, hpb, hqb] using hlt

theorem optionMapList_of_isSome {α β γ : Type} (f : α → Option β) (g : α → β → γ)
    (d : β) :
    ∀ l : List α, (∀ a ∈ l, (f a).isSome) →
      optionMapList (fun a => (f a).map (g a)) l =
        some (l.map (fun a => g a ((f a).getD d))) := by
  intro l
  induction l with
  | nil => intro _; rfl
  | cons a t ih =>
      intro h
      obtain ⟨v, hv⟩ :=
        Option.isSome_iff_exists.mp (h a (List.mem_cons_self a t))
      have ht := ih fun x hx => h x (List.mem_cons_of_mem a hx)
      simp [optionMapList, hv, ht]

theorem mem_of_optionMapList {α β γ : Type} (f : α → Option β) (g : α → β → γ) :
    ∀ (l : List α) (out : List γ),
      optionMapList (fun a => (f a).map (g a)) l = some out →
      ∀ x ∈ out, ∃ a b, f a = some b ∧ x = g a b := by
  intro l
  induction l with
  | nil =>
      intro out h x hx
      simp only [optionMapList, Option.some.injEq] at h
      subst h
      cases hx
  | cons a t ih =>
      intro out h x hx
      cases hfa : f a with
      | none => simp [optionMapList, hfa] at h
      | some v =>
          cases hft : optionMapList (fun a => (f a).map (g a)) t with
          | none => simp [optionMapList, hfa, hft] at h
          | some rest =>
              simp only [optionMapList, hfa, hft, Option.map_some',
                Option.some.injEq] at h
              subst h
              rcases List.mem_cons.mp hx with rfl | hxr
              · exact ⟨a, v, hfa, rfl⟩
              · exact ih rest hft x hxr

theorem nameLoop_spec (keys : List String) :
    ∀ (fuel : Nat) (name : String),
      (keys.filter (fun k => decide (name.length ≤ k.length))).length < fuel →
      keys.contains (nameLoop keys name fuel) = false ∧
      ∃ j, nameLoop keys name fuel = name ++ uscores j ∧
        ∀ i, i < j → keys.contains (name ++ uscores i) = true := by
  intro fuel
  induction fuel with
  | zero => intro name h; omega
  | succ f ih =>
      intro name h
      by_cases hm : name ∈ keys
      · have hstep :
            (keys.filter (fun k => decide ((name ++ "_").length ≤ k.length))).length <
              (keys.filter (fun k => decide (name.length ≤ k.length))).length := by
          refine length_filter_lt ?_ hm ?_ ?_
          · intro x hx
            have hu : ("_" : String).length = 1 := rfl
            have hx2 : (name ++ "_").length ≤ x.length := of_decide_eq_true hx
            have hx3 : name.length ≤ x.length := by
              rw [String.length_append, hu] at hx2
              omega
            simpa using hx3
          · simp
          · show decide ((name ++ "_").length ≤ name.length) = false
            refine decide_eq_false ?_
            have hu : ("_" : String).length = 1 := rfl
            rw [String.length_append, hu]
            omega
        obtain ⟨hnot, j, heq, hchain⟩ :=
          ih (name ++ "_") (Nat.lt_of_lt_of_le hstep (Nat.lt_succ_iff.mp h))
        have hunf : nameLoop keys name (f + 1) = nameLoop keys (name ++ "_") f := by
          simp [nameLoop, hm]
        refine ⟨by rw [hunf]; exact hnot, j + 1, ?_, ?_⟩
        · rw [hunf, heq]
          show name ++ "_" ++ uscores j = name ++ uscores (j + 1)
          simp only [uscores]
          exact String.append_assoc name "_" (uscores j)
        · intro i hi
          cases i with
          | zero =>
              have h0 : name ++ uscores 0 = name := by
                simp only [uscores]
                exact String.append_empty name
              rw [h0]
              simpa using hm
          | succ i2 =>
              have h2 := hchain i2 (by omega)
              have h3 : name ++ uscores (i2 + 1) = name ++ "_" ++ uscores i2 := by
                simp only [uscores]
                exact (String.append_assoc name "_" (uscores i2)).symm
              rw [h3]
              exact h2
      · have hunf : nameLoop keys name (f + 1) = name := by
          simp [nameLoop, hm]
        refine ⟨by rw [hunf]; simpa using hm, 0, ?_, ?_⟩
        · rw [hunf]
          simp only [uscores]
          exact (String.append_empty name).symm
        · intro i hi
          omega

theorem next_free_pk_name_spec (keys : List String) :
    keys.contains (_next_free_pk_name keys) = false ∧
    ∃ j, _next_free_pk_name keys = "id" ++ uscores j ∧
      ∀ i, i < j → keys.contains ("id" ++ uscores i) = true := by
  refine nameLoop_spec keys (keys.length + 1) "id" ?_
  have := List.length_filter_le (fun k => decide (("id" : String).length ≤ k.length)) keys
  omega

theorem infer_db_type_ne_integer (v : PyVal) (d : String) :
    infer_db_type v d ≠ DBType.Integer := by
  cases v with
  | bool b => show DBType.Boolean ≠ DBType.Integer; decide
  | int n => show DBType.Float ≠ DBType.Integer; decide
  | float q => show DBType.Float ≠ DBType.Integer; decide
  | str s =>
      show (if _does_support_varchar d then DBType.String else DBType.StringN 100) ≠
        DBType.Integer
      split <;> decide
  | datetime t => show DBType.DateTime ≠ DBType.Integer; decide
  | date t => show DBType.Date ≠ DBType.Integer; decide
  | pynone =>
      show (if _does_support_varchar d then DBType.String else DBType.StringN 100) ≠
        DBType.Integer
      split <;> decide

/-! ### Claim theorems -/

/-- C3: `infer_db_type` applies first-match-wins rules in the order
boolean, then numeric (supports addition, lacks a length property),
then timestamp, then date-only; the fallback is `String` (unbounded) on
dialects supporting it and `String(100)` otherwise. Stated as a
refinement: the source's predicate-table traversal agrees with the
spec's nested rule order on every value and dialect. -/
theorem infer_db_type_refines_spec (val : PyVal) (drivername : String) :
    infer_db_type val drivername = inferDbTypeSpec val drivername := by
  cases val <;> rfl

/-- C5: the insert-statement builder is the caller-supplied custom one
whenever present; otherwise a drivername containing `postgresql`
selects the Postgres conflict-aware upsert, else one containing `mysql`
selects the MySQL duplicate-key upsert, and every other dialect the
plain insert-with-values. -/
theorem create_insert_selection (drivername : String) (tc : TableConfiguration) :
    (∀ f, tc.create_insert_f = some f →
      _get_create_insert_f drivername tc = InsertStrategy.custom f) ∧
    (tc.create_insert_f = none → strContains drivername "postgresql" = true →
      _get_create_insert_f drivername tc = InsertStrategy.upsertPostgres) ∧
    (tc.create_insert_f = none → strContains drivername "postgresql" = false →
      strContains drivername "mysql" = true →
      _get_create_insert_f drivername tc = InsertStrategy.upsertMysql) ∧
    (tc.create_insert_f = none → strContains drivername "postgresql" = false →
      strContains drivername "mysql" = false →
      _get_create_insert_f drivername tc = InsertStrategy.plainInsert) := by
  refine ⟨?_, ?_, ?_, ?_⟩ <;> intros <;> simp [_get_create_insert_f, *]

/-- Witness for C5 at concrete drivernames and configurations. -/
theorem create_insert_selection_witness :
    _get_create_insert_f "postgresql+psycopg2" ⟨"t", none, false, [], some 7⟩ =
      InsertStrategy.custom 7 ∧
    _get_create_insert_f "postgresql+psycopg2" ⟨"t", none, false, [], none⟩ =
      InsertStrategy.upsertPostgres ∧
    _get_create_insert_f "mysql+pymysql" ⟨"t", none, false, [], none⟩ =
      InsertStrategy.upsertMysql ∧
    _get_create_insert_f "sqlite" ⟨"t", none, false, [], none⟩ =
      InsertStrategy.plainInsert :=
  ⟨(create_insert_selection _ _).1 7 rfl,
   (create_insert_selection _ _).2.1 rfl (by decide),
   (create_insert_selection _ _).2.2.1 rfl (by decide) (by decide),
   (create_insert_selection _ _).2.2.2 rfl (by decide) (by decide)⟩

/-- C4: when the descriptor's primary-key column name list is
non-empty, exactly those named columns become primary-key columns,
typed by inference from the sample values, followed by the remaining
sample keys as ordinary inferred columns; when it is empty, a synthetic
integer primary-key column is prepended, whose name is `id` with
underscores appended until it collides with no sample key (every
shorter candidate does collide), and every sample key becomes an
ordinary column. -/
theorem columns_from_sample_record_spec (record : Row)
    (primary_key_column_names : List String) (drivername : String) :
    (primary_key_column_names ≠ [] →
      (∀ c ∈ primary_key_column_names, (record.lookup c).isSome) →
      _columns_from_sample_record record primary_key_column_names drivername =
        some (primary_key_column_names.map
            (fun c => Column.mk c
              (infer_db_type ((record.lookup c).getD PyVal.pynone) drivername)
              true) ++
          (record.filter
              (fun kv => !primary_key_column_names.contains kv.1)).map
            (fun kv => Column.mk kv.1 (infer_db_type kv.2 drivername) false))) ∧
    (primary_key_column_names = [] →
      ∃ nm,
        _columns_from_sample_record record primary_key_column_names drivername =
          some (Column.mk nm DBType.Integer true ::
            record.map
              (fun kv => Column.mk kv.1 (infer_db_type kv.2 drivername) false)) ∧
        (record.map Prod.fst).contains nm = false ∧
        ∃ j, nm = "id" ++ uscores j ∧
          ∀ i, i < j →
            (record.map Prod.fst).contains ("id" ++ uscores i) = true) := by
  constructor
  · intro hne hsome
    have hlen : 0 < primary_key_column_names.length := List.length_pos.mpr hne
    have hmap := optionMapList_of_isSome (fun c => record.lookup c)
      (fun c v => Column.mk c (infer_db_type v drivername) true) PyVal.pynone
      primary_key_column_names hsome
    simp only [_columns_from_sample_record]
    rw [if_pos hlen, hmap]
  · intro he
    subst he
    obtain ⟨hfree, j, hj, hchain⟩ := next_free_pk_name_spec (record.map Prod.fst)
    exact ⟨_next_free_pk_name (record.map Prod.fst), rfl, hfree, j, hj, hchain⟩

/-- Witness for C4: a sample row with configured primary key `id`, and
a sample row with no configured primary key whose synthetic column gets
the name `id`. -/
theorem columns_from_sample_record_witness :
    _columns_from_sample_record
        [("id", PyVal.int 3), ("name", PyVal.str "Jack3"), ("age", PyVal.int 23)]
        ["id"] "postgresql" =
      some [Column.mk "id" DBType.Float true,
        Column.mk "name" DBType.String false,
        Column.mk "age" DBType.Float false] ∧
    _columns_from_sample_record [("x", PyVal.int 1)] [] "mysql" =
      some [Column.mk "id" DBType.Integer true,
        Column.mk "x" DBType.Float false] := by
  constructor
  · have h := (columns_from_sample_record_spec
        [("id", PyVal.int 3), ("name", PyVal.str "Jack3"), ("age", PyVal.int 23)]
        ["id"] "postgresql").1 (by decide) (by decide)
    rw [h]
    rfl
  · obtain ⟨nm, heq, hfree, j, hj, hchain⟩ :=
      (columns_from_sample_record_spec [("x", PyVal.int 1)] [] "mysql").2 rfl
    have hj0 : j = 0 := by
      by_contra hne
      have hcoll := hchain 0 (Nat.pos_of_ne_zero hne)
      have h0 : ("id" : String) ++ uscores 0 = "id" := rfl
      rw [h0] at hcoll
      exact absurd hcoll (by decide)
    subst hj0
    have hnm : nm = "id" := hj
    rw [hnm] at heq
    rw [heq]
    rfl

/-- C10: a value that is not a boolean, supports addition with `1` and
lacks a length property (in particular every int) is inferred as the
floating-point column type, never the integer type; `infer_db_type`
never yields the integer type, and any integer-typed column produced by
`_columns_from_sample_record` is the synthetic primary-key column of
the empty-primary-key branch. -/
theorem integer_type_only_for_synthetic_pk (drivername : String) :
    (∀ n : Int, infer_db_type (PyVal.int n) drivername = DBType.Float) ∧
    (∀ v : PyVal, v.isBool = false → v.supportsAddOne = true →
      v.hasLen = false → infer_db_type v drivername = DBType.Float) ∧
    (∀ v : PyVal, infer_db_type v drivername ≠ DBType.Integer) ∧
    (∀ (record : Row) (pk : List String) (cols : List Column) (c : Column),
      _columns_from_sample_record record pk drivername = some cols →
      c ∈ cols → c.dbtype = DBType.Integer →
      pk = [] ∧
        c = Column.mk (_next_free_pk_name (record.map Prod.fst))
          DBType.Integer true) := by
  refine ⟨fun n => rfl, ?_, fun v => infer_db_type_ne_integer v drivername, ?_⟩
  · intro v h1 h2 h3
    cases v <;> simp_all [PyVal.isBool, PyVal.supportsAddOne, PyVal.hasLen] <;> rfl
  · intro record pk cols c hcols hc hdb
    by_cases hpk : 0 < pk.length
    · exfalso
      cases hopt : optionMapList
          (fun col => (record.lookup col).map
            (fun v => Column.mk col (infer_db_type v drivername) true)) pk with
      | none =>
          simp only [_columns_from_sample_record] at hcols
          rw [if_pos hpk, hopt] at hcols
          exact Option.noConfusion hcols
      | some pkcols =>
          simp only [_columns_from_sample_record] at hcols
          rw [if_pos hpk, hopt] at hcols
          have hcols2 := Option.some.inj hcols
          rw [← hcols2] at hc
          rcases List.mem_append.mp hc with hmem | hmem
          · obtain ⟨a, b, _, hcEq⟩ := mem_of_optionMapList
              (fun col => record.lookup col)
              (fun col v => Column.mk col (infer_db_type v drivername) true)
              pk pkcols hopt c hmem
            rw [hcEq] at hdb
            exact infer_db_type_ne_integer b drivername hdb
          · obtain ⟨kv, _, hcEq⟩ := List.mem_map.mp hmem
            rw [← hcEq] at hdb
            exact infer_db_type_ne_integer kv.2 drivername hdb
    · have hnil : pk = [] := List.eq_nil_of_length_eq_zero (by omega)
      subst hnil
      refine ⟨rfl, ?_⟩
      simp only [_columns_from_sample_record] at hcols
      rw [if_neg hpk] at hcols
      have hcols2 := Option.some.inj hcols
      rw [← hcols2] at hc
      rcases List.mem_cons.mp hc with rfl | hmem
      · rfl
      · exfalso
        obtain ⟨kv, _, hcEq⟩ := List.mem_map.mp hmem
        rw [← hcEq] at hdb
        exact infer_db_type_ne_integer kv.2 drivername hdb

/-- Witness for C10: a float value infers to `Float`; the column list
built from `{'x': 1}` with no configured primary key carries `Integer`
only on the synthetic `id` column. -/
theorem integer_type_only_for_synthetic_pk_witness :
    infer_db_type (PyVal.float 2) "sqlite" = DBType.Float ∧
    (([] : List String) = [] ∧
      Column.mk "id" DBType.Integer true =
        Column.mk (_next_free_pk_name (([("x", PyVal.int 1)] : Row).map Prod.fst))
          DBType.Integer true) := by
  constructor
  · exact (integer_type_only_for_synthetic_pk "sqlite").2.1 (PyVal.float 2) rfl rfl rfl
  · exact (integer_type_only_for_synthetic_pk "sqlite").2.2.2
      [("x", PyVal.int 1)] []
      [Column.mk "id" DBType.Integer true, Column.mk "x" DBType.Float false]
      (Column.mk "id" DBType.Integer true) (by decide) (by decide) rfl

theorem open_table_cache_extends (st : SqlAlchemyDB) (db : DB) (nm : String)
    (getf : DB → Except PyError (Option (List Column) × DB))
    (table : TableHandle) (st2 : SqlAlchemyDB) (db2 : DB)
    (hok : _open_table st db nm getf = Except.ok (table, st2, db2)) :
    ∀ k v, st.name_to_table.lookup k = some v →
      st2.name_to_table.lookup k = some v := by
  intro k v hk
  unfold _open_table at hok
  cases hli : st.name_to_table.lookup nm with
  | some t0 =>
      rw [hli] at hok
      simp only [Except.ok.injEq, Prod.mk.injEq] at hok
      rw [← hok.2.1]
      exact hk
  | none =>
      rw [hli] at hok
      cases hg : _get_table db nm getf with
      | error e => rw [hg] at hok; exact Except.noConfusion hok
      | ok pr =>
          obtain ⟨table3, db3⟩ := pr
          rw [hg] at hok
          simp only [Except.ok.injEq, Prod.mk.injEq] at hok
          rw [← hok.2.1]
          exact lookup_append_left hk

theorem open_table_db_preserved (st : SqlAlchemyDB) (db : DB) (nm : String)
    (getf : DB → Except PyError (Option (List Column) × DB))
    (hgetf : ∀ r db2, getf db = Except.ok (r, db2) → db2 = db)
    (table : TableHandle) (st2 : SqlAlchemyDB) (db2 : DB)
    (hok : _open_table st db nm getf = Except.ok (table, st2, db2)) :
    db2 = db := by
  unfold _open_table at hok
  cases hli : st.name_to_table.lookup nm with
  | some t0 =>
      rw [hli] at hok
      simp only [Except.ok.injEq, Prod.mk.injEq] at hok
      exact hok.2.2.symm
  | none =>
      rw [hli] at hok
      unfold _get_table at hok
      cases hg : getf db with
      | error e => rw [hg] at hok; simp at hok
      | ok pr =>
          obtain ⟨r, db3⟩ := pr
          rw [hg] at hok
          have hdb3 : db3 = db := hgetf r db3 hg
          cases r with
          | some cols =>
              simp only [Except.ok.injEq, Prod.mk.injEq] at hok
              rw [← hok.2.2]
              exact hdb3
          | none => simp at hok

/-- C1 counterexample: a `write_record` call that fails during table
resolution (table absent, create-if-missing false) re-signals the
failure without rolling back or closing the session — the session is
still open afterwards, refuting the claim for that class of failure. -/
theorem write_record_failure_counterexample :
    (write_record ⟨"sqlite", true, []⟩ ⟨[], []⟩
        ⟨"students", none, false, [], none⟩ [] none).error =
      some (PyError.sqlAlchemyDbError "Failed to get table students") ∧
    (write_record ⟨"sqlite", true, []⟩ ⟨[], []⟩
        ⟨"students", none, false, [], none⟩ [] none).st.session_open = true := by
  constructor <;> rfl

/-- C1 (amended): a failure raised inside `_Table.write_record`'s try
block (statement construction, execute, commit) triggers rollback of
the uncommitted row and closure of the session before the failure is
re-signaled; a failure during table resolution is re-signaled with
session, cache and database left exactly as they were (in particular
the session stays open). -/
theorem write_record_failure_semantics (st : SqlAlchemyDB) (db : DB)
    (tc : TableConfiguration) (record : Row) (e : PyError) :
    (∀ table st2 db2,
      _open_table_for_write st db tc record = Except.ok (table, st2, db2) →
      write_record st db tc record (some e) =
        ⟨some e, { st2 with session_open := false }, db2⟩) ∧
    (∀ execFailure,
      _open_table_for_write st db tc record = Except.error e →
      write_record st db tc record execFailure = ⟨some e, st, db⟩) := by
  constructor
  · intro table st2 db2 hopen
    simp [write_record, hopen]
  · intro execFailure hopen
    simp [write_record, hopen]

/-- Witness for C1's amended theorem: an execution failure closes the
session and keeps the created table but not the row; a resolution
failure leaves the open session untouched. -/
theorem write_record_failure_semantics_witness :
    write_record ⟨"sqlite", true, []⟩ ⟨[], []⟩ ⟨"t", none, true, [], none⟩
        [("x", PyVal.int 1)] (some (PyError.dbError 0)) =
      ⟨some (PyError.dbError 0),
        ⟨"sqlite", false,
          [("t", mk_Table [Column.mk "id" DBType.Integer true,
            Column.mk "x" DBType.Float false] "t")]⟩,
        ⟨[("t", [Column.mk "id" DBType.Integer true,
          Column.mk "x" DBType.Float false])], []⟩⟩ ∧
    write_record ⟨"sqlite", true, []⟩ ⟨[], []⟩ ⟨"u", none, false, [], none⟩ []
        (some (PyError.dbError 0)) =
      ⟨some (PyError.sqlAlchemyDbError "Failed to get table u"),
        ⟨"sqlite", true, []⟩, ⟨[], []⟩⟩ := by
  constructor
  · exact (write_record_failure_semantics ⟨"sqlite", true, []⟩ ⟨[], []⟩
        ⟨"t", none, true, [], none⟩ [("x", PyVal.int 1)] (PyError.dbError 0)).1
      (mk_Table [Column.mk "id" DBType.Integer true,
        Column.mk "x" DBType.Float false] "t")
      ⟨"sqlite", true,
        [("t", mk_Table [Column.mk "id" DBType.Integer true,
          Column.mk "x" DBType.Float false] "t")]⟩
      ⟨[("t", [Column.mk "id" DBType.Integer true,
        Column.mk "x" DBType.Float false])], []⟩
      rfl
  · exact (write_record_failure_semantics ⟨"sqlite", true, []⟩ ⟨[], []⟩
        ⟨"u", none, false, [], none⟩ [] (PyError.sqlAlchemyDbError "Failed to get table u")).2
      (some (PyError.dbError 0)) rfl

/-- C2: once a table name is resolved, its cache entry is the handle
used by every subsequent read or write of that name, with no
re-resolution and no re-creation (state and database are untouched); no
write operation removes or replaces the entry, and `close_session`
leaves the cache as is, so an entry is never invalidated by the
read/write operations themselves. -/
theorem table_cache_reuse (st : SqlAlchemyDB) (db : DB) (name : String)
    (t : TableHandle) (h : st.name_to_table.lookup name = some t) :
    _open_table_for_read st db name = Except.ok (t, st, db) ∧
    (∀ tc record, tc.name = name →
      _open_table_for_write st db tc record = Except.ok (t, st, db)) ∧
    (∀ tc record execFailure,
      (write_record st db tc record execFailure).st.name_to_table.lookup name =
        some t) ∧
    (close_session st).name_to_table = st.name_to_table := by
  refine ⟨?_, ?_, ?_, rfl⟩
  · simp [_open_table_for_read, _open_table, h]
  · intro tc record hname
    simp [_open_table_for_write, _open_table, hname, h]
  · intro tc record execFailure
    unfold write_record
    cases hw : _open_table_for_write st db tc record with
    | error e => exact h
    | ok res =>
        obtain ⟨table, st2, db2⟩ := res
        have hpres : st2.name_to_table.lookup name = some t :=
          open_table_cache_extends st db tc.name _ table st2 db2 hw name t h
        cases execFailure with
        | none => exact hpres
        | some e => exact hpres

/-- Witness for C2 at a concrete cached handle: a read and a write of
the cached name both return the cached handle unchanged (the write even
though the table is absent from the database and create-if-missing is
false), and a completed write keeps the entry. -/
theorem table_cache_reuse_witness :
    _open_table_for_read
        ⟨"sqlite", true, [("t", mk_Table [Column.mk "a" DBType.Float false] "t")]⟩
        ⟨[], []⟩ "t" =
      Except.ok (mk_Table [Column.mk "a" DBType.Float false] "t",
        ⟨"sqlite", true, [("t", mk_Table [Column.mk "a" DBType.Float false] "t")]⟩,
        ⟨[], []⟩) ∧
    _open_table_for_write
        ⟨"sqlite", true, [("t", mk_Table [Column.mk "a" DBType.Float false] "t")]⟩
        ⟨[], []⟩ ⟨"t", none, false, [], none⟩ [("z", PyVal.str "q")] =
      Except.ok (mk_Table [Column.mk "a" DBType.Float false] "t",
        ⟨"sqlite", true, [("t", mk_Table [Column.mk "a" DBType.Float false] "t")]⟩,
        ⟨[], []⟩) ∧
    (write_record
        ⟨"sqlite", true, [("t", mk_Table [Column.mk "a" DBType.Float false] "t")]⟩
        ⟨[], []⟩ ⟨"t", none, false, [], none⟩ [] none).st.name_to_table.lookup "t" =
      some (mk_Table [Column.mk "a" DBType.Float false] "t") := by
  refine ⟨?_, ?_, ?_⟩
  · exact (table_cache_reuse
      ⟨"sqlite", true, [("t", mk_Table [Column.mk "a" DBType.Float false] "t")]⟩
      ⟨[], []⟩ "t" (mk_Table [Column.mk "a" DBType.Float false] "t") rfl).1
  · exact (table_cache_reuse
      ⟨"sqlite", true, [("t", mk_Table [Column.mk "a" DBType.Float false] "t")]⟩
      ⟨[], []⟩ "t" (mk_Table [Column.mk "a" DBType.Float false] "t") rfl).2.1
      ⟨"t", none, false, [], none⟩ [("z", PyVal.str "q")] rfl
  · exact (table_cache_reuse
      ⟨"sqlite", true, [("t", mk_Table [Column.mk "a" DBType.Float false] "t")]⟩
      ⟨[], []⟩ "t" (mk_Table [Column.mk "a" DBType.Float false] "t") rfl).2.2.1
      ⟨"t", none, false, [], none⟩ [] none

/-- C6: a write whose target table does not exist (and is not cached),
with create-if-missing false, fails with the resolution error naming
the table, and the database — and all other state — is left unchanged:
no table is created. -/
theorem write_missing_table_create_false (st : SqlAlchemyDB) (db : DB)
    (tc : TableConfiguration) (record : Row) (execFailure : Option PyError)
    (hcache : st.name_to_table.lookup tc.name = none)
    (hdb : load_table db tc.name = none)
    (hflag : tc.create_table_if_missing = false) :
    write_record st db tc record execFailure =
      ⟨some (PyError.sqlAlchemyDbError ("Failed to get table " ++ tc.name)),
        st, db⟩ := by
  simp [write_record, _open_table_for_write, _open_table, hcache, _get_table,
    create_table, hdb, hflag]

/-- Witness for C6: writing to absent table `students` with
create-if-missing false fails naming the table, creating nothing. -/
theorem write_missing_table_create_false_witness :
    write_record ⟨"postgresql", true, []⟩ ⟨[("other", [])], []⟩
        ⟨"students", none, false, ["id"], none⟩ [("id", PyVal.int 3)] none =
      ⟨some (PyError.sqlAlchemyDbError "Failed to get table students"),
        ⟨"postgresql", true, []⟩, ⟨[("other", [])], []⟩⟩ :=
  write_missing_table_create_false ⟨"postgresql", true, []⟩ ⟨[("other", [])], []⟩
    ⟨"students", none, false, ["id"], none⟩ [("id", PyVal.int 3)] none
    rfl rfl rfl

/-- C7: a read of a table name absent from the database (and from the
cache) fails with the resolution error naming the table, and the read
path never changes the database: any successful read returns it
untouched. -/
theorem read_missing_table_fails_no_write (st : SqlAlchemyDB) (db : DB)
    (name : String)
    (hcache : st.name_to_table.lookup name = none)
    (hdb : load_table db name = none) :
    read st db name =
      Except.error (PyError.sqlAlchemyDbError ("Failed to get table " ++ name)) ∧
    (∀ nm rows2 st2 db2,
      read st db nm = Except.ok (rows2, st2, db2) → db2 = db) := by
  constructor
  · simp [read, _open_table_for_read, _open_table, hcache, _get_table, hdb]
  · intro nm rows2 st2 db2 hok
    unfold read at hok
    cases hopen : _open_table_for_read st db nm with
    | error e => rw [hopen] at hok; exact Except.noConfusion hok
    | ok res =>
        obtain ⟨table, st3, db3⟩ := res
        rw [hopen] at hok
        simp only [Except.ok.injEq, Prod.mk.injEq] at hok
        rw [← hok.2.2]
        refine open_table_db_preserved st db nm
          (fun d => Except.ok (load_table d nm, d)) ?_ table st3 db3 hopen
        intro r db4 hg
        simp only [Except.ok.injEq, Prod.mk.injEq] at hg
        exact hg.2.symm

/-- Witness for C7: reading absent table `students` fails naming the
table; a successful read of cached `t` leaves the database unchanged. -/
theorem read_missing_table_fails_no_write_witness :
    read ⟨"sqlite", true, []⟩ ⟨[("other", [])], []⟩ "students" =
      Except.error (PyError.sqlAlchemyDbError "Failed to get table students") ∧
    (⟨[("other", [])], []⟩ : DB) = ⟨[("other", [])], []⟩ := by
  constructor
  · exact (read_missing_table_fails_no_write ⟨"sqlite", true, []⟩
      ⟨[("other", [])], []⟩ "students" rfl rfl).1
  · exact (read_missing_table_fails_no_write ⟨"sqlite", true, []⟩
      ⟨[("other", [])], []⟩ "students" rfl rfl).2 "other"
      (table_records (mk_Table [] "other") ⟨[("other", [])], []⟩)
      ⟨"sqlite", true, [("other", mk_Table [] "other")]⟩
      ⟨[("other", [])], []⟩ rfl

/-- C8: resolving a write whose target table already exists in the
database returns the existing schema handle and leaves the database
unchanged, for every sample record and every descriptor configuration
(create flag, primary-key names): no check of the record's keys or
shapes against the schema occurs. -/
theorem write_existing_table_reuses_schema (db : DB) (name : String)
    (cols : List Column) (hdb : load_table db name = some cols) :
    (∀ (tc : TableConfiguration) (record : Row) (drivername : String),
      create_table db name tc record drivername = Except.ok (some cols, db)) ∧
    (∀ (st : SqlAlchemyDB) (tc : TableConfiguration) (record : Row),
      tc.name = name →
      st.name_to_table.lookup name = none →
      _open_table_for_write st db tc record =
        Except.ok (mk_Table cols name,
          { st with name_to_table :=
              st.name_to_table ++ [(name, mk_Table cols name)] },
          db)) := by
  constructor
  · intro tc record drivername
    simp [create_table, hdb]
  · intro st tc record hname hcache
    simp [_open_table_for_write, _open_table, hname, hcache, _get_table,
      create_table, hdb]

/-- Witness for C8: two writes with different records and flags against
an existing table both resolve to the same existing schema with the
database unchanged. -/
theorem write_existing_table_reuses_schema_witness :
    create_table ⟨[("t", [Column.mk "a" DBType.Float true])], []⟩ "t"
        ⟨"t", none, true, ["zz"], none⟩ [("b", PyVal.str "s")] "mysql" =
      Except.ok (some [Column.mk "a" DBType.Float true],
        ⟨[("t", [Column.mk "a" DBType.Float true])], []⟩) ∧
    create_table ⟨[("t", [Column.mk "a" DBType.Float true])], []⟩ "t"
        ⟨"t", none, false, [], none⟩ [] "sqlite" =
      Except.ok (some [Column.mk "a" DBType.Float true],
        ⟨[("t", [Column.mk "a" DBType.Float true])], []⟩) ∧
    _open_table_for_write ⟨"sqlite", true, []⟩
        ⟨[("t", [Column.mk "a" DBType.Float true])], []⟩
        ⟨"t", none, false, [], none⟩ [("nope", PyVal.pynone)] =
      Except.ok (mk_Table [Column.mk "a" DBType.Float true] "t",
        ⟨"sqlite", true, [("t", mk_Table [Column.mk "a" DBType.Float true] "t")]⟩,
        ⟨[("t", [Column.mk "a" DBType.Float true])], []⟩) := by
  refine ⟨?_, ?_, ?_⟩
  · exact (write_existing_table_reuses_schema
      ⟨[("t", [Column.mk "a" DBType.Float true])], []⟩ "t"
      [Column.mk "a" DBType.Float true] rfl).1
      ⟨"t", none, true, ["zz"], none⟩ [("b", PyVal.str "s")] "mysql"
  · exact (write_existing_table_reuses_schema
      ⟨[("t", [Column.mk "a" DBType.Float true])], []⟩ "t"
      [Column.mk "a" DBType.Float true] rfl).1
      ⟨"t", none, false, [], none⟩ [] "sqlite"
  · exact (write_existing_table_reuses_schema
      ⟨[("t", [Column.mk "a" DBType.Float true])], []⟩ "t"
      [Column.mk "a" DBType.Float true] rfl).2
      ⟨"sqlite", true, []⟩ ⟨"t", none, false, [], none⟩
      [("nope", PyVal.pynone)] rfl rfl

/-- C9: a write whose resolution fails re-signals the error with the
cache (and database) unchanged — no entry is added for the name — so a
subsequent write of the same name with create-if-missing true still
creates the table and succeeds. -/
theorem resolution_failure_leaves_cache (st : SqlAlchemyDB) (db : DB)
    (tc : TableConfiguration) (record : Row) (e : PyError)
    (hfail : _open_table_for_write st db tc record = Except.error e) :
    (∀ execFailure,
      write_record st db tc record execFailure = ⟨some e, st, db⟩) ∧
    (∀ (tc2 : TableConfiguration) (record2 : Row) (cols : List Column),
      tc2.name = tc.name →
      tc2.create_table_if_missing = true →
      tc2.define_table_f = none →
      st.name_to_table.lookup tc.name = none →
      load_table db tc.name = none →
      _columns_from_sample_record record2 tc2.primary_key_column_names
        st.drivername = some cols →
      write_record st db tc2 record2 none =
        ⟨none,
          { st with name_to_table :=
              st.name_to_table ++ [(tc.name, mk_Table cols tc.name)] },
          insertRow ⟨db.tables ++ [(tc.name, cols)], db.rows⟩
            tc.name record2⟩) := by
  constructor
  · intro execFailure
    simp [write_record, hfail]
  · intro tc2 record2 cols hname hflag hdef hcache hdb hcols
    simp [write_record, _open_table_for_write, _open_table, hname, hcache,
      _get_table, create_table, hdb, hflag, hdef, hcols, insertRow, mk_Table]

/-- Witness for C9: the failed create-if-missing-false write leaves the
empty cache, and the retried write with create-if-missing true creates
table `t` and commits the row. -/
theorem resolution_failure_leaves_cache_witness :
    write_record ⟨"sqlite", true, []⟩ ⟨[], []⟩ ⟨"t", none, false, [], none⟩
        [("x", PyVal.int 1)] none =
      ⟨some (PyError.sqlAlchemyDbError "Failed to get table t"),
        ⟨"sqlite", true, []⟩, ⟨[], []⟩⟩ ∧
    write_record ⟨"sqlite", true, []⟩ ⟨[], []⟩ ⟨"t", none, true, [], none⟩
        [("x", PyVal.int 1)] none =
      ⟨none,
        ⟨"sqlite", true,
          [("t", mk_Table [Column.mk "id" DBType.Integer true,
            Column.mk "x" DBType.Float false] "t")]⟩,
        ⟨[("t", [Column.mk "id" DBType.Integer true,
            Column.mk "x" DBType.Float false])],
          [("t", [("x", PyVal.int 1)])]⟩⟩ := by
  constructor
  · exact (resolution_failure_leaves_cache ⟨"sqlite", true, []⟩ ⟨[], []⟩
      ⟨"t", none, false, [], none⟩ [("x", PyVal.int 1)]
      (PyError.sqlAlchemyDbError "Failed to get table t") rfl).1 none
  · exact (resolution_failure_leaves_cache ⟨"sqlite", true, []⟩ ⟨[], []⟩
      ⟨"t", none, false, [], none⟩ [("x", PyVal.int 1)]
      (PyError.sqlAlchemyDbError "Failed to get table t") rfl).2
      ⟨"t", none, true, [], none⟩ [("x", PyVal.int 1)]
      [Column.mk "id" DBType.Integer true, Column.mk "x" DBType.Float false]
      rfl rfl rfl rfl rfl rfl

end BeamNuggets
